import Mathlib

/-!
Shallow embedding of `electron_launcher_creator.py` and
`create_vscode_launcher.py`.

Strings are modelled as Lean `String` (a wrapper around `List Char`).
The Python library primitives the scripts use (`os.path.basename`,
`os.path.join`, `os.path.expanduser`, `str.strip`, `str.lower`,
`str.split`, `str.replace`, `int(...)`) are given explicit executable
models below, named `py...`, each translated from the CPython
semantics of the call as the scripts use it.

The filesystem seen by the scanning code is modelled explicitly: an
application bundle is the list of glob-visible relative paths inside
it (each path a list of component names), and a directory listing is a
list of named bundles; a nonexistent or unreadable directory is
`Option.none` (Python's `glob` returns `[]` there).  The one external
process (`osacompile`) is an oracle `ok : String → Bool` giving the
success of the invocation for a given (expanded) target path.
-/

/-! ### Models of the Python string and path primitives -/

/-- Whitespace characters removed by CPython `str.strip()`. -/
def isPySpace (c : Char) : Bool :=
  c == ' ' || c == '\t' || c == '\n' || c == '\r' || c == '\x0b' || c == '\x0c'

/-- Model of `str.strip()`: drop leading and trailing whitespace. -/
def pyStrip (s : String) : String :=
  ⟨((s.data.dropWhile isPySpace).reverse.dropWhile isPySpace).reverse⟩

/-- Model of `str.lower()` (the scripts only feed it ASCII). -/
def pyLower (s : String) : String := ⟨s.data.map Char.toLower⟩

/-- Model of `str.startswith(pre)`. -/
def pyStartsWith (s pre : String) : Bool := pre.data.isPrefixOf s.data

/-- Model of `str.endswith(suf)`. -/
def pyEndsWith (s suf : String) : Bool := suf.data.reverse.isPrefixOf s.data.reverse

/-- Model of `os.path.basename`: everything after the last `/`. -/
def pyBasename (p : String) : String :=
  ⟨(p.data.reverse.takeWhile (fun c => c != '/')).reverse⟩

/-- Model of posix `os.path.join(a, b)`: `b` if absolute, otherwise `a`
and `b` glued with a separator unless `a` is empty or already ends
with one. -/
def pyJoin (a b : String) : String :=
  if pyStartsWith b "/" then b
  else if a == "" || pyEndsWith a "/" then a ++ b
  else a ++ "/" ++ b

/-- Model of `os.path.expanduser` for the bare `~` form (the `~user`
form falls back to the unchanged path, as CPython does for an unknown
user; the scripts only ever pass bare-`~` paths). -/
def expanduser (home p : String) : String :=
  if p == "~" then home
  else if pyStartsWith p "~/" then home ++ ⟨p.data.drop 1⟩
  else p

/-- Model of CPython `str.replace(old, new)` for a single-character
needle: a left-to-right scan replacing each occurrence of `old` by
`new`. -/
def pyReplaceChar (old : Char) (new : List Char) : List Char → List Char
  | [] => []
  | c :: rest =>
    if c == old then new ++ pyReplaceChar old new rest
    else c :: pyReplaceChar old new rest

/-- Validity of a digit run per CPython integer-literal parsing after
sign removal: the run continues with digits, a single underscore
allowed only between digits. -/
def pyDigitsRest : List Char → Bool
  | [] => true
  | '_' :: rest =>
    match rest with
    | [] => false
    | c :: r2 => c.isDigit && pyDigitsRest r2
  | c :: rest => c.isDigit && pyDigitsRest rest

/-- A nonempty digit run starting with a digit. -/
def pyDigitsOk : List Char → Bool
  | [] => false
  | c :: rest => c.isDigit && pyDigitsRest rest

/-- Numeric value of a digit run, underscores skipped. -/
def pyDigitsVal (l : List Char) : Nat :=
  l.foldl (fun acc c => if c == '_' then acc else acc * 10 + (c.toNat - 48)) 0

/-- Model of CPython `int(s)` on an already-stripped string: optional
sign followed by a digit run; `none` where `int` raises `ValueError`. -/
def pyInt (s : String) : Option Int :=
  match s.data with
  | '+' :: rest => if pyDigitsOk rest then some (Int.ofNat (pyDigitsVal rest)) else none
  | '-' :: rest => if pyDigitsOk rest then some (-(Int.ofNat (pyDigitsVal rest))) else none
  | l => if pyDigitsOk l then some (Int.ofNat (pyDigitsVal l)) else none

/-- Worker for `str.split(',')`. -/
def pySplitCommaAux : List Char → List Char → List String
  | acc, [] => [⟨acc.reverse⟩]
  | acc, c :: rest =>
    if c == ',' then ⟨acc.reverse⟩ :: pySplitCommaAux [] rest
    else pySplitCommaAux (c :: acc) rest

/-- Model of `str.split(',')`: fields between commas; the empty string
splits to `[""]`, as in Python. -/
def pySplitComma (s : String) : List String := pySplitCommaAux [] s.data

/-- Substring search worker: does some suffix of the haystack start
with the pattern? -/
def containsAux (p : List Char) : List Char → Bool
  | [] => p.isEmpty
  | c :: rest => p.isPrefixOf (c :: rest) || containsAux p rest

/-- Substring containment on strings. -/
def containsStr (s pat : String) : Bool := containsAux pat.data s.data

/-- Owner-execute permission bit of a numeric `chmod` mode. -/
def modeRunnableByOwner (m : Nat) : Bool := m.testBit 6

/-- Others-read permission bit of a numeric `chmod` mode. -/
def modeReadableByOthers (m : Nat) : Bool := m.testBit 2

/-- Others-execute permission bit of a numeric `chmod` mode. -/
def modeExecutableByOthers (m : Nat) : Bool := m.testBit 0

/-! ### electron_launcher_creator.py -/

/-- The fixed marker names of `is_electron_app`
(electron_launcher_creator.py, lines 41-45). -/
def electron_indicators : List String :=
  ["Electron Framework.framework", "electron.asar", "app.asar"]

/-- A bundle's contents: the glob-visible relative paths inside it,
each as a list of path components. -/
abbrev BundleTree := List (List String)

/-- Does a relative path end in the given component name? -/
def lastComponentIs (p : List String) (ind : String) : Bool :=
  match p.getLast? with
  | some c => c == ind
  | none => false

/-- Model of `glob.glob(os.path.join(app_path, "**", indicator),
recursive=True)` being nonempty: some visible relative path in the
bundle has the indicator as its final component (`**` matches zero or
more directories). -/
def globRecMatch (tree : BundleTree) (ind : String) : Bool :=
  tree.any (fun p => lastComponentIs p ind)

/-- The indicator loop of `is_electron_app` (lines 47-49): return true
on the first hit. -/
def checkIndicators (tree : BundleTree) : List String → Bool
  | [] => false
  | i :: rest => if globRecMatch tree i then true else checkIndicators tree rest

/-- `is_electron_app` (electron_launcher_creator.py, lines 30-51). -/
def is_electron_app (tree : BundleTree) : Bool :=
  checkIndicators tree electron_indicators

/-- `get_app_name` (electron_launcher_creator.py, lines 53-68):
`os.path.basename`, then strip a trailing `.app` (Python slice
`[:-4]`). -/
def get_app_name (app_path : String) : String :=
  let base_name := pyBasename app_path
  if pyEndsWith base_name ".app" then ⟨base_name.data.take (base_name.data.length - 4)⟩
  else base_name

/-- The target path used by `create_launcher` (line 80):
`os.path.expanduser(app_path)`. -/
def launcherTargetPath (home app_path : String) : String := expanduser home app_path

/-- The output directory used by `create_launcher` (lines 88-89): the
supplied `output_path` verbatim, or `os.path.expanduser("~/Desktop")`
when absent. -/
def launcherOutputDir (home : String) (output? : Option String) : String :=
  match output? with
  | some o => o
  | none => expanduser home "~/Desktop"

/-- The escaped target path embedded in the AppleScript source (line
101): `app_path.replace(' ', '\\ ')`. -/
def escaped_app_path (ap : String) : String := ⟨pyReplaceChar ' ' ['\\', ' '] ap.data⟩

/-- Literal text of the AppleScript template before the escaped path
(lines 103-107). -/
def ascPre : String := "\n        on run\n            do shell script \"open "

/-- Literal text of the AppleScript template after the escaped path. -/
def ascPost : String := " --args --use-angle=gl\"\n        end run\n        "

/-- The AppleScript source written to the temporary file in
`create_launcher` (lines 98-109). -/
def applescriptContent (ap : String) : String := ascPre ++ escaped_app_path ap ++ ascPost

/-- `create_launcher` (electron_launcher_creator.py, lines 70-123),
modelled on the accumulated list of successfully created launcher
paths.  The `osacompile` invocation is the oracle `ok`, applied to the
expanded target path; a non-zero exit raises
`subprocess.CalledProcessError` (`check=True`), which the source does
not catch (its `try` carries only a `finally` that unlinks the
temporary file), modelled as `Except.error`. -/
def create_launcher (home : String) (ok : String → Bool) (app_path : String)
    (app_name? output? : Option String) (launchers : List String) :
    Except String (List String) :=
  let ap := launcherTargetPath home app_path
  let app_name :=
    match app_name? with
    | some n => n
    | none => get_app_name ap ++ " with OpenGL"
  let output_path := launcherOutputDir home output?
  let launcher_path := pyJoin output_path (app_name ++ ".app")
  if ok ap then Except.ok (launchers ++ [launcher_path])
  else Except.error ("osacompile failed: " ++ launcher_path)

/-- The batch loop of `main` (electron_launcher_creator.py, lines
205-207): each selected application is passed to `create_launcher`
with no name and the shared output path; the source puts no
`try`/`except` around the call, so an error ends the loop. -/
def createLaunchersBatch (home : String) (ok : String → Bool) (output? : Option String) :
    List String → List String → Except String (List String)
  | [], launchers => Except.ok launchers
  | a :: rest, launchers =>
    match create_launcher home ok a none output? launchers with
    | Except.ok l2 => createLaunchersBatch home ok output? rest l2
    | Except.error e => Except.error e

/-- A named application bundle as seen in a directory listing. -/
structure AppEntry where
  name : String
  tree : BundleTree
deriving DecidableEq

/-- Model of matching one listing entry against the glob pattern
`*.app` (line 141): `*` matches any run of characters in a name not
starting with a dot. -/
def globStarApp (n : String) : Bool :=
  pyEndsWith n ".app" && !(pyStartsWith n ".")

/-- The `glob.glob(os.path.join(directory, "*.app"))` call of
`find_electron_apps` (line 141): a nonexistent or unreadable directory
(`none`) yields no matches. -/
def globAppsListing (d : Option (List AppEntry)) : List AppEntry :=
  match d with
  | some es => es.filter (fun e => globStarApp e.name)
  | none => []

/-- The filtering loop of `find_electron_apps` (lines 144-147). -/
def collectElectron : List AppEntry → List AppEntry
  | [] => []
  | e :: rest =>
    if is_electron_app e.tree then e :: collectElectron rest
    else collectElectron rest

/-- `find_electron_apps` (electron_launcher_creator.py, lines 125-149). -/
def find_electron_apps (d : Option (List AppEntry)) : List AppEntry :=
  collectElectron (globAppsListing d)

/-- Result of the interactive selection block: quit, a rejected line
(the `except (ValueError, IndexError)` arm printing "Invalid
selection"), or the chosen applications. -/
inductive SelResult where
  | quit : SelResult
  | invalid : SelResult
  | chosen : List String → SelResult
deriving DecidableEq

/-- The selection block of `main` (electron_launcher_creator.py, lines
190-203): the quit token, the all-token, otherwise split the line on
commas and apply `int` to each stripped field (a `ValueError` anywhere
rejects the whole line), subtract 1, and keep the in-range indices. -/
def selectApps (choice : String) (apps : List String) : SelResult :=
  if pyLower choice == "q" then SelResult.quit
  else if pyLower choice == "all" then SelResult.chosen apps
  else
    match (pySplitComma choice).mapM (fun tok => pyInt (pyStrip tok)) with
    | none => SelResult.invalid
    | some vals =>
      let indices := vals.map (fun v => v - 1)
      SelResult.chosen (indices.filterMap (fun idx =>
        if 0 ≤ idx ∧ idx < (apps.length : Int) then apps.get? idx.toNat else none))

/-! ### create_vscode_launcher.py -/

/-- The shell script text written by both generation modes of
create_vscode_launcher.py (lines 49-51 and 123-125). -/
def shellScriptText : String :=
  "#!/bin/bash\nopen \"/Applications/Visual Studio Code.app\" --args --use-angle=gl\n"

/-- The file written by `create_shell_launcher`, its `chmod` mode, and
the function's return value. -/
structure ShellArtifact where
  scriptPath : String
  content : String
  mode : Nat
  returned : String
deriving DecidableEq

/-- `create_shell_launcher` (create_vscode_launcher.py, lines 22-62). -/
def create_shell_launcher (home : String) (app_name : String) (app_path? : Option String) :
    ShellArtifact :=
  let app_path :=
    match app_path? with
    | some p => p
    | none => expanduser home "~/Desktop"
  let script_path := pyJoin app_path (app_name ++ ".command")
  { scriptPath := script_path
    content := shellScriptText
    mode := 0o755
    returned := script_path }

/-- Model of `app_name.replace(" ", "")` (line 108). -/
def pyRemoveSpaces (s : String) : String := ⟨pyReplaceChar ' ' [] s.data⟩

/-- Literal chunk of the `Info.plist` f-string (lines 99-117) before the
first `{app_name}` interpolation. -/
def plistChunk1 : String :=
  "<?xml version=\"1.0\" encoding=\"UTF-8\"?>\n<!DOCTYPE plist PUBLIC \"-//Apple//DTD PLIST 1.0//EN\" \"http://www.apple.com/DTDs/PropertyList-1.0.dtd\">\n<plist version=\"1.0\">\n<dict>\n    <key>CFBundleExecutable</key>\n    <string>"

/-- Literal chunk between `{app_name}` and the identifier
interpolation, split just before its trailing `com.user.` text. -/
def plistChunk2 : String :=
  "</string>\n    <key>CFBundleIconFile</key>\n    <string>code_gl.icns</string>\n    <key>CFBundleIdentifier</key>\n    <string>"

/-- Literal chunk between the identifier interpolation and the second
`{app_name}` interpolation. -/
def plistChunk3 : String :=
  "</string>\n    <key>CFBundleName</key>\n    <string>"

/-- Literal chunk after the second `{app_name}` interpolation. -/
def plistChunk4 : String :=
  "</string>\n    <key>CFBundlePackageType</key>\n    <string>APPL</string>\n    <key>CFBundleVersion</key>\n    <string>1.0</string>\n</dict>\n</plist>\n"

/-- The `Info.plist` text of `create_app_bundle` (lines 99-117): the
f-string is the concatenation of its literal chunks and the
interpolated expressions (`plistChunk2 ++ "com.user."` is the full
literal run before the identifier's interpolated expression). -/
def infoPlist (app_name : String) : String :=
  plistChunk1 ++ app_name ++ plistChunk2 ++ "com.user." ++ pyRemoveSpaces app_name ++
    plistChunk3 ++ app_name ++ plistChunk4

/-- The files and directories written by `create_app_bundle`, the
executable's `chmod` mode, the icon copy, and the return value. -/
structure BundleArtifact where
  bundlePath : String
  plistPath : String
  plistContent : String
  execPath : String
  execContent : String
  execMode : Nat
  iconSource : String
  iconDestDir : String
  returned : String
deriving DecidableEq

/-- `create_app_bundle` (create_vscode_launcher.py, lines 64-140). -/
def create_app_bundle (home : String) (app_name : String) (app_path? : Option String) :
    BundleArtifact :=
  let app_path :=
    match app_path? with
    | some p => p
    | none => expanduser home "~/Desktop"
  let app_bundle_path := pyJoin app_path (app_name ++ ".app")
  let contents_dir := pyJoin app_bundle_path "Contents"
  let macos_dir := pyJoin contents_dir "MacOS"
  let resources_dir := pyJoin contents_dir "Resources"
  { bundlePath := app_bundle_path
    plistPath := pyJoin contents_dir "Info.plist"
    plistContent := infoPlist app_name
    execPath := pyJoin macos_dir app_name
    execContent := shellScriptText
    execMode := 0o755
    iconSource := "./icons/code_gl.icns"
    iconDestDir := resources_dir
    returned := app_bundle_path }

/-- The fixed install path of the wrapped application (line 162). -/
def vscode_path : String := "/Applications/Visual Studio Code.app"

/-- Observable outcome of `main` of create_vscode_launcher.py: whether
the missing-target warning was printed, and the two artifacts. -/
structure VsMainResult where
  warned : Bool
  shellLauncher : ShellArtifact
  bundleLauncher : BundleArtifact
deriving DecidableEq

/-- `main` of create_vscode_launcher.py (lines 142-178): argument
defaulting (lines 146-159), the existence check of the fixed target
(lines 161-167, selecting only between a warning and a found message),
then both generation calls unconditionally (lines 169-171).  `argv`
models `sys.argv[1:]`; `vscodeExists` models
`os.path.exists(vscode_path)`. -/
def vsMain (home : String) (vscodeExists : Bool) (argv : List String) : VsMainResult :=
  let app_name :=
    match argv.get? 0 with
    | some n => n
    | none => "VS Code with OpenGL"
  let app_path :=
    match argv.get? 1 with
    | some p => p
    | none => expanduser home "~/Desktop"
  let warned := if vscodeExists then false else true
  { warned := warned
    shellLauncher := create_shell_launcher home app_name (some app_path)
    bundleLauncher := create_app_bundle home app_name (some app_path) }

/-! ### Helper lemmas -/

theorem strData_append (s t : String) : (s ++ t).data = s.data ++ t.data := by
  cases s; cases t; rfl

theorem strEta (s : String) : String.mk s.data = s := by cases s; rfl

theorem dotApp_data : (".app" : String).data = ['.', 'a', 'p', 'p'] := rfl

theorem slash_data : ("/" : String).data = ['/'] := rfl

theorem lastComponentIs_iff (p : List String) (ind : String) :
    lastComponentIs p ind = true ↔ p.getLast? = some ind := by
  cases hp : p.getLast? <;> simp [lastComponentIs, hp]

theorem globRecMatch_iff (tree : BundleTree) (ind : String) :
    globRecMatch tree ind = true ↔ ∃ p ∈ tree, p.getLast? = some ind := by
  simp [globRecMatch, List.any_eq_true, lastComponentIs_iff]

theorem checkIndicators_eq_any (tree : BundleTree) :
    ∀ l : List String, checkIndicators tree l = l.any (fun i => globRecMatch tree i)
  | [] => rfl
  | i :: rest => by
    cases hgi : globRecMatch tree i <;>
      simp [checkIndicators, hgi, checkIndicators_eq_any tree rest]

theorem collectElectron_eq_filter :
    ∀ es : List AppEntry, collectElectron es = es.filter (fun e => is_electron_app e.tree)
  | [] => rfl
  | e :: rest => by
    cases he : is_electron_app e.tree <;>
      simp [collectElectron, he, List.filter_cons, collectElectron_eq_filter rest]

theorem filter_filter_and {α : Type} (p q : α → Bool) :
    ∀ l : List α, (l.filter p).filter q = l.filter (fun x => p x && q x)
  | [] => rfl
  | x :: rest => by
    cases hp : p x <;> cases hq : q x <;>
      simp [List.filter_cons, hp, hq, filter_filter_and p q rest]

theorem pyReplaceChar_join (old : Char) (new : List Char) :
    ∀ l : List Char,
      pyReplaceChar old new l = (l.map (fun c => if c == old then new else [c])).flatten
  | [] => rfl
  | c :: rest => by
    cases hc : c == old
    · have h2 : ¬ (c = old) := by simpa using hc
      simp [pyReplaceChar, hc, h2, pyReplaceChar_join old new rest]
    · have h2 : c = old := by simpa using hc
      simp [pyReplaceChar, hc, h2, pyReplaceChar_join old new rest]

/-! ### Claim theorems -/

/-- C1 counterexample: with two selected applications of which the first
fails to compile, the batch run ends in an uncaught error; it does not
proceed to the second application, contradicting the claim that the
failure is caught and the batch continues. -/
theorem c1_counterexample :
    createLaunchersBatch "/Users/u" (fun p => p == "/Apps/B.app") (some "/out")
      ["/Apps/A.app", "/Apps/B.app"] [] =
      Except.error "osacompile failed: /out/A with OpenGL.app" ∧
    ¬ ∃ ls, createLaunchersBatch "/Users/u" (fun p => p == "/Apps/B.app") (some "/out")
      ["/Apps/A.app", "/Apps/B.app"] [] = Except.ok ls := by
  refine ⟨rfl, ?_⟩
  rintro ⟨ls, h⟩
  exact Except.noConfusion h

/-- C1 amended: a non-zero `osacompile` exit for the first application of
a batch propagates as an uncaught error that aborts the whole batch
loop, whatever applications remain. -/
theorem c1_amended (home : String) (ok : String → Bool) (output? : Option String)
    (a : String) (rest launchers : List String)
    (h : ok (expanduser home a) = false) :
    ∃ e, createLaunchersBatch home ok output? (a :: rest) launchers = Except.error e := by
  refine ⟨"osacompile failed: " ++
      pyJoin (launcherOutputDir home output?)
        (get_app_name (expanduser home a) ++ " with OpenGL" ++ ".app"), ?_⟩
  simp [createLaunchersBatch, create_launcher, launcherTargetPath, h]

theorem c1_amended_witness :
    ∃ e, createLaunchersBatch "/Users/u" (fun _ => false) none ["/Apps/A.app"] [] =
      Except.error e :=
  c1_amended "/Users/u" (fun _ => false) none "/Apps/A.app" [] [] rfl

/-- C2 counterexample: the input line `"1,x"` against a 4-item list does
not select item 1; the non-numeric token makes `int` raise, the handler
rejects the entire selection, and nothing is selected. -/
theorem c2_counterexample :
    selectApps "1,x" ["a", "b", "c", "d"] = SelResult.invalid ∧
    selectApps "1,x" ["a", "b", "c", "d"] ≠ SelResult.chosen ["a"] :=
  ⟨by decide, by decide⟩

/-- C2 amended: the quit token yields an empty selection and the
all-token selects every entry (case-insensitively); any other line is
split on commas with each field parsed as a 1-based index; out-of-range
indices are silently dropped while remaining valid indices are still
selected, but a non-numeric field rejects the entire line as invalid
(selecting nothing); whatever is chosen comes from the match list, and
no exception escapes the selector. -/
theorem c2_amended (choice : String) (apps : List String) :
    selectApps "q" apps = SelResult.quit ∧
    selectApps "Q" apps = SelResult.quit ∧
    selectApps "all" apps = SelResult.chosen apps ∧
    selectApps "1,3" ["a", "b", "c", "d"] = SelResult.chosen ["a", "c"] ∧
    selectApps "5,x" ["a", "b", "c", "d"] = SelResult.invalid ∧
    selectApps "1,99" ["a", "b", "c", "d"] = SelResult.chosen ["a"] ∧
    selectApps " 2 " ["a", "b", "c", "d"] = SelResult.chosen ["b"] ∧
    (∀ l, selectApps choice apps = SelResult.chosen l → ∀ x ∈ l, x ∈ apps) := by
  refine ⟨rfl, rfl, rfl, by decide, by decide, by decide, by decide, ?_⟩
  intro l h x hx
  unfold selectApps at h
  by_cases h1 : (pyLower choice == "q") = true
  · rw [if_pos h1] at h; exact SelResult.noConfusion h
  · rw [if_neg h1] at h
    by_cases h2 : (pyLower choice == "all") = true
    · rw [if_pos h2] at h
      cases h; exact hx
    · rw [if_neg h2] at h
      cases hm : (pySplitComma choice).mapM (fun tok => pyInt (pyStrip tok)) with
      | none => rw [hm] at h; exact SelResult.noConfusion h
      | some vals =>
        rw [hm] at h
        cases h
        rw [List.mem_filterMap] at hx
        obtain ⟨idx, hidx, hif⟩ := hx
        by_cases hc : 0 ≤ idx ∧ idx < (apps.length : Int)
        · rw [if_pos hc] at hif
          exact List.get?_mem hif
        · rw [if_neg hc] at hif
          exact Option.noConfusion hif

theorem c2_amended_witness : "a" ∈ ["a", "b", "c", "d"] :=
  (c2_amended "1,3" ["a", "b", "c", "d"]).2.2.2.2.2.2.2 ["a", "c"] (by decide) "a" (by decide)

/-- C3 counterexample: an operator-supplied output path beginning with
`~/` is used literally by compiled-script generation, not expanded: the
generated launcher path keeps the literal `~/launchers` prefix even
though expansion would give `/Users/u/launchers`. -/
theorem c3_counterexample :
    launcherOutputDir "/Users/u" (some "~/launchers") = "~/launchers" ∧
    expanduser "/Users/u" "~/launchers" = "/Users/u/launchers" ∧
    "~/launchers" ≠ "/Users/u/launchers" ∧
    create_launcher "/Users/u" (fun _ => true) "/Apps/X.app" none (some "~/launchers") [] =
      Except.ok ["~/launchers/X with OpenGL.app"] :=
  ⟨rfl, by decide, by decide, rfl⟩

/-- C3 amended: home-directory expansion is applied to the target
application path, and to the default output path (`~/Desktop`) when no
output path is supplied, but an operator-supplied output path is used
verbatim without expansion. -/
theorem c3_amended (home p o : String) (ok : String → Bool)
    (h : ok (expanduser home p) = true) :
    launcherTargetPath home p = expanduser home p ∧
    launcherOutputDir home none = expanduser home "~/Desktop" ∧
    launcherOutputDir home (some o) = o ∧
    create_launcher home ok p none (some o) [] =
      Except.ok [pyJoin o (get_app_name (expanduser home p) ++ " with OpenGL" ++ ".app")] := by
  refine ⟨rfl, rfl, rfl, ?_⟩
  simp [create_launcher, launcherTargetPath, launcherOutputDir, h]

theorem c3_amended_witness :
    launcherTargetPath "/Users/u" "~/Code.app" = expanduser "/Users/u" "~/Code.app" ∧
    launcherOutputDir "/Users/u" none = expanduser "/Users/u" "~/Desktop" ∧
    launcherOutputDir "/Users/u" (some "~/launchers") = "~/launchers" ∧
    create_launcher "/Users/u" (fun _ => true) "~/Code.app" none (some "~/launchers") [] =
      Except.ok [pyJoin "~/launchers"
        (get_app_name (expanduser "/Users/u" "~/Code.app") ++ " with OpenGL" ++ ".app")] :=
  c3_amended "/Users/u" "~/Code.app" "~/launchers" (fun _ => true) rfl

/-- C4: `is_electron_app` returns true exactly when some glob-visible
path of the bundle tree ends in one of the three fixed marker names; an
unreadable or empty tree yields false; the model is a pure function, so
there are no side effects. -/
theorem c4_probe (tree : BundleTree) :
    (is_electron_app tree = true ↔
      ∃ p ∈ tree, (p.getLast? = some "Electron Framework.framework" ∨
        p.getLast? = some "electron.asar" ∨ p.getLast? = some "app.asar")) ∧
    is_electron_app ([] : BundleTree) = false := by
  refine ⟨?_, rfl⟩
  rw [is_electron_app, checkIndicators_eq_any]
  simp only [electron_indicators, List.any_cons, List.any_nil, Bool.or_eq_true,
    Bool.false_eq_true, or_false, globRecMatch_iff]
  constructor
  · rintro (⟨p, hp, hl⟩ | ⟨p, hp, hl⟩ | ⟨p, hp, hl⟩)
    exacts [⟨p, hp, Or.inl hl⟩, ⟨p, hp, Or.inr (Or.inl hl)⟩, ⟨p, hp, Or.inr (Or.inr hl)⟩]
  · rintro ⟨p, hp, (hl | hl | hl)⟩
    exacts [Or.inl ⟨p, hp, hl⟩, Or.inr (Or.inl ⟨p, hp, hl⟩), Or.inr (Or.inr ⟨p, hp, hl⟩)]

theorem c4_probe_witness :
    is_electron_app [["Contents", "Frameworks", "Electron Framework.framework"]] = true :=
  (c4_probe [["Contents", "Frameworks", "Electron Framework.framework"]]).1.mpr
    ⟨["Contents", "Frameworks", "Electron Framework.framework"], by decide, Or.inl (by decide)⟩

/-- C5: scanning returns exactly the immediate `.app` entries of the
listing detected by the prober, as the order-preserving filter of the
listing; a nonexistent or unreadable directory yields the empty list
without an error. -/
theorem c5_scan (es : List AppEntry) (e : AppEntry) :
    find_electron_apps none = [] ∧
    find_electron_apps (some es) =
      es.filter (fun x => globStarApp x.name && is_electron_app x.tree) ∧
    (e ∈ find_electron_apps (some es) ↔
      e ∈ es ∧ globStarApp e.name = true ∧ is_electron_app e.tree = true) ∧
    List.Sublist (find_electron_apps (some es)) es := by
  have hsome : find_electron_apps (some es) =
      es.filter (fun x => globStarApp x.name && is_electron_app x.tree) := by
    rw [find_electron_apps, globAppsListing, collectElectron_eq_filter, filter_filter_and]
  refine ⟨rfl, hsome, ?_, ?_⟩
  · rw [hsome]; simp [List.mem_filter, Bool.and_eq_true, and_assoc]
  · rw [hsome]; exact List.filter_sublist es

/-- C9: when the fixed target is missing, `main` warns but both launcher
artifacts are still generated, identical to the ones generated when the
target exists. -/
theorem c9_missing_target (home : String) (argv : List String) :
    (vsMain home false argv).warned = true ∧
    (vsMain home true argv).warned = false ∧
    (vsMain home false argv).shellLauncher = (vsMain home true argv).shellLauncher ∧
    (vsMain home false argv).bundleLauncher = (vsMain home true argv).bundleLauncher :=
  ⟨rfl, rfl, rfl, rfl⟩

/-- C10: the target path is embedded in the AppleScript shell command
after replacing each space by backslash-space, every other character
kept verbatim; in particular a path with no spaces (quotes and dollar
signs included) is embedded unchanged. -/
theorem c10_escaping (ap : String) :
    applescriptContent ap = ascPre ++ escaped_app_path ap ++ ascPost ∧
    (escaped_app_path ap).data =
      (ap.data.map (fun c => if c == ' ' then ['\\', ' '] else [c])).flatten ∧
    escaped_app_path "/Apps/My App.app" = "/Apps/My\\ App.app" ∧
    escaped_app_path "/Apps/\"$x\".app" = "/Apps/\"$x\".app" := by
  refine ⟨rfl, ?_, by decide, by decide⟩
  exact pyReplaceChar_join ' ' ['\\', ' '] ap.data

/-! ### Path-shape helper lemmas for the generation theorems -/

theorem pyJoin_slash (a b : String) (hb : pyStartsWith b "/" = false)
    (ha : (a == "") = false) (hs : pyEndsWith a "/" = false) :
    pyJoin a b = a ++ "/" ++ b := by
  simp [pyJoin, hb, ha, hs]

theorem appendSlash_ne_empty (a b : String) : ((a ++ "/" ++ b) == "") = false := by
  rw [beq_eq_false_iff_ne]
  intro hcontra
  have h2 := congrArg String.data hcontra
  rw [strData_append, strData_append, slash_data] at h2
  have h0 : ("" : String).data = [] := rfl
  rw [h0] at h2
  simp at h2

theorem pyEndsWith_slash_append (x b : String) (c : Char) (bs : List Char)
    (hb : b.data.reverse = c :: bs) (hc : ('/' == c) = false) :
    pyEndsWith (x ++ b) "/" = false := by
  have h1 : (x ++ b).data.reverse = c :: (bs ++ x.data.reverse) := by
    rw [strData_append, List.reverse_append, hb]; rfl
  simp only [pyEndsWith]
  rw [h1]
  show List.isPrefixOf ['/'] (c :: (bs ++ x.data.reverse)) = false
  simp [List.isPrefixOf, hc]

theorem pyStartsWith_slash_left (nm s : String)
    (h : pyStartsWith (nm ++ s) "/" = false) : pyStartsWith nm "/" = false := by
  cases hd : nm.data with
  | nil => simp [pyStartsWith, slash_data, hd, List.isPrefixOf]
  | cons c cs =>
    have h2 : (nm ++ s).data = c :: (cs ++ s.data) := by rw [strData_append, hd]; rfl
    simp only [pyStartsWith, slash_data] at h ⊢
    rw [h2] at h
    rw [hd]
    simp [List.isPrefixOf] at h ⊢
    exact h

theorem pyReplaceChar_empty_filter (old : Char) :
    ∀ l : List Char, pyReplaceChar old [] l = l.filter (fun c => !(c == old))
  | [] => rfl
  | c :: rest => by
    cases hc : c == old <;>
      simp [pyReplaceChar, hc, List.filter_cons, pyReplaceChar_empty_filter old rest]

/-- C6: the name resolver strips a trailing `.app` from the final path
component, returning the remainder verbatim (spaces included), and
returns a component with no `.app` suffix unchanged. -/
theorem c6_resolveName (p n : String) :
    (pyBasename p = n ++ ".app" → get_app_name p = n) ∧
    (pyEndsWith (pyBasename p) ".app" = false → get_app_name p = pyBasename p) ∧
    get_app_name "Foo Bar.app" = "Foo Bar" ∧
    get_app_name "/Applications/Utilities/Foo Bar.app" = "Foo Bar" ∧
    get_app_name "Notes" = "Notes" := by
  refine ⟨?_, ?_, by decide, by decide, by decide⟩
  · intro h
    have hdata : (pyBasename p).data = n.data ++ ['.', 'a', 'p', 'p'] := by
      rw [h, strData_append, dotApp_data]
    have hrev : (pyBasename p).data.reverse = 'p' :: ('p' :: ('a' :: ('.' :: n.data.reverse))) := by
      rw [hdata, List.reverse_append]; rfl
    have he : pyEndsWith (pyBasename p) ".app" = true := by
      simp only [pyEndsWith]
      rw [hrev]
      show List.isPrefixOf ['p', 'p', 'a', '.'] _ = true
      simp [List.isPrefixOf]
    have hlen : (n.data ++ ['.', 'a', 'p', 'p']).length - 4 = n.data.length := by simp
    show get_app_name p = n
    simp only [get_app_name, he, if_true]
    rw [hdata, hlen, List.take_left]
  · intro h
    simp [get_app_name, h]

theorem c6_resolveName_witness : get_app_name "/Applications/Foo Bar.app" = "Foo Bar" :=
  (c6_resolveName "/Applications/Foo Bar.app" "Foo Bar").1 (by decide)

/-- C7: script-mode generation writes the launcher at
`dir/name.command`, its content contains the forced rendering argument
and the target application path, its mode `0o755` makes it runnable by
the owner and readable and executable by others, and the written path
is returned. -/
theorem c7_script (home name dir : String)
    (h1 : pyStartsWith (name ++ ".command") "/" = false)
    (h2 : (dir == "") = false)
    (h3 : pyEndsWith dir "/" = false) :
    (create_shell_launcher home name (some dir)).scriptPath =
      dir ++ "/" ++ (name ++ ".command") ∧
    containsStr (create_shell_launcher home name (some dir)).content "--use-angle=gl" = true ∧
    containsStr (create_shell_launcher home name (some dir)).content
      "/Applications/Visual Studio Code.app" = true ∧
    modeRunnableByOwner (create_shell_launcher home name (some dir)).mode = true ∧
    modeReadableByOthers (create_shell_launcher home name (some dir)).mode = true ∧
    modeExecutableByOthers (create_shell_launcher home name (some dir)).mode = true ∧
    (create_shell_launcher home name (some dir)).returned =
      (create_shell_launcher home name (some dir)).scriptPath := by
  refine ⟨?_, ?_, ?_, ?_, ?_, ?_, rfl⟩
  · show pyJoin dir (name ++ ".command") = dir ++ "/" ++ (name ++ ".command")
    exact pyJoin_slash dir (name ++ ".command") h1 h2 h3
  · show containsStr shellScriptText "--use-angle=gl" = true
    decide
  · show containsStr shellScriptText "/Applications/Visual Studio Code.app" = true
    decide
  · show modeRunnableByOwner 0o755 = true
    decide
  · show modeReadableByOthers 0o755 = true
    decide
  · show modeExecutableByOthers 0o755 = true
    decide

theorem c7_script_witness :
    (create_shell_launcher "/Users/u" "X" (some "/Users/u/Desktop")).scriptPath =
      "/Users/u/Desktop" ++ "/" ++ ("X" ++ ".command") ∧
    containsStr (create_shell_launcher "/Users/u" "X" (some "/Users/u/Desktop")).content
      "--use-angle=gl" = true ∧
    containsStr (create_shell_launcher "/Users/u" "X" (some "/Users/u/Desktop")).content
      "/Applications/Visual Studio Code.app" = true ∧
    modeRunnableByOwner (create_shell_launcher "/Users/u" "X" (some "/Users/u/Desktop")).mode
      = true ∧
    modeReadableByOthers (create_shell_launcher "/Users/u" "X" (some "/Users/u/Desktop")).mode
      = true ∧
    modeExecutableByOthers (create_shell_launcher "/Users/u" "X" (some "/Users/u/Desktop")).mode
      = true ∧
    (create_shell_launcher "/Users/u" "X" (some "/Users/u/Desktop")).returned =
      (create_shell_launcher "/Users/u" "X" (some "/Users/u/Desktop")).scriptPath :=
  c7_script "/Users/u" "X" "/Users/u/Desktop" (by decide) (by decide) (by decide)

/-- C8: structured-bundle generation writes a descriptor whose
identifier field is the reverse-domain prefix followed by the display
name with all spaces removed (space removal proved as a filter), and an
executable stub at `dir/name.app/Contents/MacOS/name` whose mode
`0o755` carries the execute bits. -/
theorem c8_bundle (home name dir : String)
    (h1 : pyStartsWith (name ++ ".app") "/" = false)
    (h2 : (dir == "") = false)
    (h3 : pyEndsWith dir "/" = false) :
    (∃ pre post, (create_app_bundle home name (some dir)).plistContent =
      pre ++ ("com.user." ++ pyRemoveSpaces name) ++ post) ∧
    (pyRemoveSpaces name).data = name.data.filter (fun c => !(c == ' ')) ∧
    (create_app_bundle home name (some dir)).execPath =
      dir ++ "/" ++ (name ++ ".app") ++ "/" ++ "Contents" ++ "/" ++ "MacOS" ++ "/" ++ name ∧
    modeRunnableByOwner (create_app_bundle home name (some dir)).execMode = true ∧
    modeExecutableByOthers (create_app_bundle home name (some dir)).execMode = true := by
  refine ⟨?_, pyReplaceChar_empty_filter ' ' name.data, ?_, ?_, ?_⟩
  · refine ⟨plistChunk1 ++ name ++ plistChunk2, plistChunk3 ++ name ++ plistChunk4, ?_⟩
    show infoPlist name = _
    simp only [infoPlist, String.append_assoc]
  · have hb1 : (name ++ ".app").data.reverse =
        'p' :: ('p' :: ('a' :: ('.' :: name.data.reverse))) := by
      rw [strData_append, dotApp_data, List.reverse_append]; rfl
    have e1 : pyJoin dir (name ++ ".app") = dir ++ "/" ++ (name ++ ".app") :=
      pyJoin_slash dir (name ++ ".app") h1 h2 h3
    have e2 : pyJoin (dir ++ "/" ++ (name ++ ".app")) "Contents" =
        dir ++ "/" ++ (name ++ ".app") ++ "/" ++ "Contents" :=
      pyJoin_slash _ _ (by decide) (appendSlash_ne_empty dir (name ++ ".app"))
        (pyEndsWith_slash_append (dir ++ "/") (name ++ ".app") 'p' _ hb1 rfl)
    have e3 : pyJoin (dir ++ "/" ++ (name ++ ".app") ++ "/" ++ "Contents") "MacOS" =
        dir ++ "/" ++ (name ++ ".app") ++ "/" ++ "Contents" ++ "/" ++ "MacOS" :=
      pyJoin_slash _ _ (by decide)
        (appendSlash_ne_empty (dir ++ "/" ++ (name ++ ".app")) "Contents")
        (pyEndsWith_slash_append (dir ++ "/" ++ (name ++ ".app") ++ "/") "Contents" 's'
          ['t', 'n', 'e', 't', 'n', 'o', 'C'] rfl rfl)
    have e4 : pyJoin (dir ++ "/" ++ (name ++ ".app") ++ "/" ++ "Contents" ++ "/" ++ "MacOS")
        name =
        dir ++ "/" ++ (name ++ ".app") ++ "/" ++ "Contents" ++ "/" ++ "MacOS" ++ "/" ++ name :=
      pyJoin_slash _ _ (pyStartsWith_slash_left name ".app" h1)
        (appendSlash_ne_empty (dir ++ "/" ++ (name ++ ".app") ++ "/" ++ "Contents") "MacOS")
        (pyEndsWith_slash_append (dir ++ "/" ++ (name ++ ".app") ++ "/" ++ "Contents" ++ "/")
          "MacOS" 'S' ['O', 'c', 'a', 'M'] rfl rfl)
    show pyJoin (pyJoin (pyJoin (pyJoin dir (name ++ ".app")) "Contents") "MacOS") name = _
    rw [e1, e2, e3, e4]
  · show modeRunnableByOwner 0o755 = true
    decide
  · show modeExecutableByOthers 0o755 = true
    decide

theorem c8_bundle_witness :
    (∃ pre post,
      (create_app_bundle "/h" "VS Code with OpenGL" (some "/Users/u/Desktop")).plistContent =
        pre ++ ("com.user." ++ pyRemoveSpaces "VS Code with OpenGL") ++ post) ∧
    (pyRemoveSpaces "VS Code with OpenGL").data =
      ("VS Code with OpenGL" : String).data.filter (fun c => !(c == ' ')) ∧
    (create_app_bundle "/h" "VS Code with OpenGL" (some "/Users/u/Desktop")).execPath =
      "/Users/u/Desktop" ++ "/" ++ ("VS Code with OpenGL" ++ ".app") ++ "/" ++ "Contents" ++
        "/" ++ "MacOS" ++ "/" ++ "VS Code with OpenGL" ∧
    modeRunnableByOwner
      (create_app_bundle "/h" "VS Code with OpenGL" (some "/Users/u/Desktop")).execMode = true ∧
    modeExecutableByOthers
      (create_app_bundle "/h" "VS Code with OpenGL" (some "/Users/u/Desktop")).execMode = true :=
  c8_bundle "/h" "VS Code with OpenGL" "/Users/u/Desktop" (by decide) (by decide) (by decide)
